import Mathlib

/-!
Shallow embedding of the canvas interaction core of
`image-canvas/src/canvas.ts` (class `ImageCanvas`), together with proofs
about its selection, grouping, dragging, marquee, zoom and deletion logic.

Modelling conventions:
* JavaScript numbers are modelled as exact rationals (`ℚ`).
* `crypto.randomUUID()` is modelled by passing the freshly generated id as
  an explicit argument to the operation that calls it.
* Mutation of an `ImageNode` object held in `this.images` is modelled as an
  update of the list entry with that node's id (ids are unique by
  construction, which theorems assume explicitly where it matters).
* The DOM `keys` set is modelled by passing the queried membership
  (`Space` held) as a boolean argument; a pointer event contributes its
  `shiftKey` flag and its `offsetX`/`offsetY` point; a wheel event its
  `ctrlKey || metaKey` flag, `deltaY` sign and offset point.
* Asynchronous image decoding in `addImage` is modelled by passing the
  decode outcome (`none` = `onerror`, `some (naturalW, naturalH)` =
  `onload`) as an argument; the promise result is an `Except`.
-/

namespace ImageCanvas

/-- Embeds `Point` from `types.ts`. -/
structure Point where
  x : ℚ
  y : ℚ
deriving Repr, DecidableEq

/-- Embeds `Rectangle` from `types.ts`. -/
structure Rectangle where
  x : ℚ
  y : ℚ
  w : ℚ
  h : ℚ
deriving Repr, DecidableEq

/-- Embeds `ImageNode` from `types.ts` (the raster handle `img` and the `src`
string carry no canvas logic and are omitted). -/
structure ImageNode where
  id : String
  x : ℚ
  y : ℚ
  w : ℚ
  h : ℚ
  selected : Bool
  groupId : Option String
deriving Repr, DecidableEq

/-- Embeds `ImageGroup` from `types.ts`. -/
structure ImageGroup where
  id : String
  imageIds : List String
  name : String
deriving Repr, DecidableEq

/-- Embeds `Viewport` from `types.ts`. -/
structure Viewport where
  scale : ℚ
  tx : ℚ
  ty : ℚ
deriving Repr, DecidableEq

/-- Embeds `DragState` from `types.ts`; `draggedImages` is kept by node id. -/
structure DragState where
  isDragging : Bool
  startPoint : Point
  startViewport : Option Viewport := none
  draggedImages : Option (List String) := none
  initialPositions : Option (List (String × Point)) := none
deriving Repr, DecidableEq

/-- Embeds `SelectionState` from `types.ts`. -/
structure SelectionState where
  isSelecting : Bool
  startPoint : Point
  currentPoint : Point
deriving Repr, DecidableEq

/-- The mutable fields of class `ImageCanvas` (canvas.ts lines 12-26);
`hasSelectionCallback` models whether `onSelectionChange` is set. -/
structure CanvasState where
  images : List ImageNode
  groups : List ImageGroup
  viewport : Viewport
  dragState : DragState
  selectionState : SelectionState
  isPanning : Bool
  needsRedraw : Bool
  hasSelectionCallback : Bool
deriving Repr, DecidableEq

/-- The initial field values of a fresh `ImageCanvas`. -/
def initialState : CanvasState where
  images := []
  groups := []
  viewport := ⟨1, 0, 0⟩
  dragState := { isDragging := false, startPoint := ⟨0, 0⟩ }
  selectionState := { isSelecting := false, startPoint := ⟨0, 0⟩, currentPoint := ⟨0, 0⟩ }
  isPanning := false
  needsRedraw := true
  hasSelectionCallback := false

/-- Embeds `screenToWorld` (canvas.ts 266-271). -/
def screenToWorld (vp : Viewport) (screenPoint : Point) : Point :=
  ⟨(screenPoint.x - vp.tx) / vp.scale, (screenPoint.y - vp.ty) / vp.scale⟩

/-- Embeds `worldToScreen` (canvas.ts 273-278). -/
def worldToScreen (vp : Viewport) (worldPoint : Point) : Point :=
  ⟨worldPoint.x * vp.scale + vp.tx, worldPoint.y * vp.scale + vp.ty⟩

/-- Embeds `getMarqueeRect` (canvas.ts 237-247). -/
def getMarqueeRect (ss : SelectionState) : Rectangle :=
  ⟨min ss.startPoint.x ss.currentPoint.x,
   min ss.startPoint.y ss.currentPoint.y,
   |ss.currentPoint.x - ss.startPoint.x|,
   |ss.currentPoint.y - ss.startPoint.y|⟩

/-- Embeds `rectanglesIntersect` (canvas.ts 249-252). -/
def rectanglesIntersect (a b : Rectangle) : Bool :=
  !(a.x + a.w < b.x || b.x + b.w < a.x || a.y + a.h < b.y || b.y + b.h < a.y)

/-- The bounding rectangle `{x: img.x, y: img.y, w: img.w, h: img.h}` used
by `updateMarqueeSelection` (canvas.ts 229). -/
def imageRect (img : ImageNode) : Rectangle := ⟨img.x, img.y, img.w, img.h⟩

/-- Embeds `getImageAt` (canvas.ts 254-264): scans from the end of the list. -/
def getImageAt (s : CanvasState) (worldPoint : Point) : Option ImageNode :=
  s.images.reverse.find? (fun img =>
    worldPoint.x ≥ img.x && worldPoint.x ≤ img.x + img.w &&
    worldPoint.y ≥ img.y && worldPoint.y ≤ img.y + img.h)

/-- Embeds `clearSelection` (canvas.ts 280-283). -/
def clearSelection (s : CanvasState) : CanvasState :=
  { s with images := s.images.map (fun img => { img with selected := false }) }

/-- Embeds `selectGroup` (canvas.ts 285-294). -/
def selectGroup (s : CanvasState) (image : ImageNode) : CanvasState :=
  match image.groupId with
  | some _ =>
      { s with images := s.images.map (fun img =>
          if img.groupId = image.groupId then { img with selected := true } else img) }
  | none => s

/-- Embeds `toggleGroup` (canvas.ts 296-305): note `allSelected` is computed from
the current (already toggled) selection flags. -/
def toggleGroup (s : CanvasState) (image : ImageNode) : CanvasState :=
  match image.groupId with
  | some _ =>
      let groupImages := s.images.filter (fun img => img.groupId = image.groupId)
      let allSelected := groupImages.all (fun img => img.selected)
      { s with images := s.images.map (fun img =>
          if img.groupId = image.groupId then { img with selected := !allSelected } else img) }
  | none => s

/-- Models `this.images.find(img => img.id === imageId)` followed by
`image.groupId = undefined` (canvas.ts 331-334): clears `groupId` on the
first list entry with the given id. -/
def clearGroupIdFirst : List ImageNode → String → List ImageNode
  | [], _ => []
  | img :: rest, imageId =>
      if img.id = imageId then { img with groupId := none } :: rest
      else img :: clearGroupIdFirst rest imageId

/-- Embeds `removeFromGroup` (canvas.ts 324-335). -/
def removeFromGroup (s : CanvasState) (imageId : String) : CanvasState :=
  { s with
    groups := (s.groups.map (fun group =>
        { group with imageIds := group.imageIds.filter (fun id => id ≠ imageId) })).filter
      (fun group => group.imageIds.length > 1),
    images := clearGroupIdFirst s.images imageId }

/-- Embeds `deleteSelectedImages` (canvas.ts 307-322). -/
def deleteSelectedImages (s : CanvasState) : CanvasState :=
  let before := s.images.length
  let deletedImages := s.images.filter (fun img => img.selected)
  let s1 := deletedImages.foldl
    (fun st img => if img.groupId.isSome then removeFromGroup st img.id else st) s
  let images2 := s1.images.filter (fun img => !img.selected)
  { s1 with
    images := images2
    needsRedraw := if images2.length < before then true else s1.needsRedraw }

/-- Embeds `updateMarqueeSelection` (canvas.ts 225-235). -/
def updateMarqueeSelection (s : CanvasState) : CanvasState :=
  let rect := getMarqueeRect s.selectionState
  { s with images := s.images.map (fun img =>
      if rectanglesIntersect rect (imageRect img) then { img with selected := true } else img) }

/-- Embeds `handlePointerDown` (canvas.ts 84-151); `shift` is `e.shiftKey`,
`space` is `this.keys.has('Space')`, `offset` is `(e.offsetX, e.offsetY)`. -/
def handlePointerDown (s : CanvasState) (shift space : Bool) (offset : Point) : CanvasState :=
  let worldPoint := screenToWorld s.viewport offset
  if space then
    { s with
      isPanning := true
      dragState := { isDragging := true, startPoint := offset, startViewport := some s.viewport } }
  else
    match getImageAt s worldPoint with
    | some hitImage =>
        let s1 :=
          if !shift && !hitImage.selected then
            let s0 := clearSelection s
            let s0 := { s0 with images := s0.images.map (fun img =>
              if img.id = hitImage.id then { img with selected := true } else img) }
            selectGroup s0 hitImage
          else if shift then
            let s0 := { s with images := s.images.map (fun img =>
              if img.id = hitImage.id then { img with selected := !img.selected } else img) }
            toggleGroup s0 hitImage
          else s
        let selectedImages := s1.images.filter (fun img => img.selected)
        let s2 :=
          if selectedImages.length > 0 then
            { s1 with dragState :=
              { isDragging := true
                startPoint := worldPoint
                draggedImages := some (selectedImages.map (fun img => img.id))
                initialPositions := some (selectedImages.map (fun img => (img.id, Point.mk img.x img.y))) } }
          else s1
        { s2 with needsRedraw := true }
    | none =>
        let s1 := if !shift then clearSelection s else s
        { s1 with
          selectionState := { isSelecting := true, startPoint := worldPoint, currentPoint := worldPoint }
          needsRedraw := true }

/-- Embeds `handlePointerMove` (canvas.ts 153-184). -/
def handlePointerMove (s : CanvasState) (offset : Point) : CanvasState :=
  let worldPoint := screenToWorld s.viewport offset
  if s.isPanning && s.dragState.isDragging && s.dragState.startViewport.isSome then
    let vp0 := s.dragState.startViewport.getD s.viewport
    { s with
      viewport := ⟨s.viewport.scale,
        vp0.tx + (offset.x - s.dragState.startPoint.x),
        vp0.ty + (offset.y - s.dragState.startPoint.y)⟩
      needsRedraw := true }
  else if s.dragState.isDragging && s.dragState.draggedImages.isSome
      && s.dragState.initialPositions.isSome then
    let ids := s.dragState.draggedImages.getD []
    let ips := s.dragState.initialPositions.getD []
    let dx := worldPoint.x - s.dragState.startPoint.x
    let dy := worldPoint.y - s.dragState.startPoint.y
    { s with
      images := s.images.map (fun img =>
        if ids.contains img.id then
          let initialPos := (ips.lookup img.id).getD ⟨0, 0⟩
          { img with x := initialPos.x + dx, y := initialPos.y + dy }
        else img)
      needsRedraw := true }
  else if s.selectionState.isSelecting then
    let s1 := { s with selectionState := { s.selectionState with currentPoint := worldPoint } }
    { updateMarqueeSelection s1 with needsRedraw := true }
  else s

/-- Embeds `handlePointerUp` (canvas.ts 186-197). -/
def handlePointerUp (s : CanvasState) : CanvasState :=
  let s1 :=
    if s.selectionState.isSelecting then
      { s with selectionState := { s.selectionState with isSelecting := false } }
    else s
  { s1 with
    dragState := { isDragging := false, startPoint := ⟨0, 0⟩ }
    isPanning := false
    needsRedraw := true }

/-- Embeds `handleWheel` (canvas.ts 199-219); `ctrlOrMeta` is
`e.ctrlKey || e.metaKey`, `deltaY` is `e.deltaY`. -/
def handleWheel (s : CanvasState) (ctrlOrMeta : Bool) (deltaY : ℚ) (offset : Point) : CanvasState :=
  if ctrlOrMeta then
    let worldPoint := screenToWorld s.viewport offset
    let zoomFactor : ℚ := if deltaY > 0 then 9/10 else 11/10
    let newScale := max (1/10) (min 5 (s.viewport.scale * zoomFactor))
    let scaleDiff := newScale - s.viewport.scale
    { s with
      viewport := ⟨newScale,
        s.viewport.tx - worldPoint.x * scaleDiff,
        s.viewport.ty - worldPoint.y * scaleDiff⟩
      needsRedraw := true }
  else s

/-- Embeds `addImage` (canvas.ts 398-439). `decoded` is the decode outcome
(`some (naturalW, naturalH)` for `onload`, `none` for `onerror`); `newId`
models `crypto.randomUUID()`; `rectW`/`rectH` model the canvas's bounding
client rect. Returns the promise outcome together with the canvas state
after the callback ran. -/
def addImage (s : CanvasState) (decoded : Option (ℚ × ℚ)) (newId : String)
    (rectW rectH : ℚ) : Except String ImageNode × CanvasState :=
  match decoded with
  | none => (.error "Failed to load image", s)
  | some (naturalW, naturalH) =>
      let maxWidth : ℚ := 320
      let width := naturalW
      let height := naturalH
      let (width, height) :=
        if width > maxWidth then (maxWidth, height * maxWidth / width) else (width, height)
      let centerWorld := screenToWorld s.viewport ⟨rectW / 2, rectH / 2⟩
      let imageNode : ImageNode :=
        { id := newId
          x := centerWorld.x - width / 2
          y := centerWorld.y - height / 2
          w := width
          h := height
          selected := false
          groupId := none }
      (.ok imageNode, { s with images := s.images ++ [imageNode], needsRedraw := true })

/-- Embeds `clearImages` (canvas.ts 476-479). -/
def clearImages (s : CanvasState) : CanvasState :=
  { s with images := [], needsRedraw := true }

/-- Embeds `getSelectedCount` (canvas.ts 481-483). -/
def getSelectedCount (s : CanvasState) : Nat :=
  (s.images.filter (fun img => img.selected)).length

/-- Embeds `canGroup` (canvas.ts 485-488). -/
def canGroup (s : CanvasState) : Bool :=
  (s.images.filter (fun img => img.selected)).length ≥ 2

/-- Embeds `canUngroup` (canvas.ts 490-493). -/
def canUngroup (s : CanvasState) : Bool :=
  (s.images.filter (fun img => img.selected)).any (fun img => img.groupId.isSome)

/-- Embeds `groupSelectedImages` (canvas.ts 495-525); `gid` models
`crypto.randomUUID()`. -/
def groupSelectedImages (s : CanvasState) (gid : String) : Option String × CanvasState :=
  let selectedImages := s.images.filter (fun img => img.selected)
  if selectedImages.length < 2 then (none, s)
  else
    let imageIds := selectedImages.map (fun img => img.id)
    let s1 := selectedImages.foldl
      (fun st img => if img.groupId.isSome then removeFromGroup st img.id else st) s
    let newGroup : ImageGroup :=
      { id := gid, imageIds := imageIds, name := "Group " ++ toString (s1.groups.length + 1) }
    let s2 := { s1 with groups := s1.groups ++ [newGroup] }
    let s3 := { s2 with
      images := s2.images.map (fun img =>
        if imageIds.contains img.id then { img with groupId := some gid } else img)
      needsRedraw := true }
    (some gid, s3)

/-- Embeds `ungroupSelectedImages` (canvas.ts 527-540). -/
def ungroupSelectedImages (s : CanvasState) : List String × CanvasState :=
  let selectedImages := s.images.filter (fun img => img.selected && img.groupId.isSome)
  let step := fun (acc : List String × CanvasState) (img : ImageNode) =>
    if img.groupId.isSome then (acc.1 ++ [img.id], removeFromGroup acc.2 img.id) else acc
  let result := selectedImages.foldl step ([], s)
  (result.1, { result.2 with needsRedraw := true })

/-- Embeds `setSelectionChangeCallback` (canvas.ts 542-544). -/
def setSelectionChangeCallback (s : CanvasState) : CanvasState :=
  { s with hasSelectionCallback := true }

/-- The externally triggerable operations of the component: its public
methods plus the DOM event handlers it registers (pointer, wheel), which
are the component's full input surface. -/
inductive Op where
  | opAddImage (decoded : Option (ℚ × ℚ)) (newId : String) (rectW rectH : ℚ)
  | opGroupSelected (gid : String)
  | opUngroupSelected
  | opDeleteSelected
  | opClearImages
  | opPointerDown (shift space : Bool) (offset : Point)
  | opPointerMove (offset : Point)
  | opPointerUp
  | opWheel (ctrlOrMeta : Bool) (deltaY : ℚ) (offset : Point)
deriving Repr, DecidableEq

/-- One step of the component under an externally triggered operation. -/
def applyOp (s : CanvasState) : Op → CanvasState
  | .opAddImage decoded newId rectW rectH => (addImage s decoded newId rectW rectH).2
  | .opGroupSelected gid => (groupSelectedImages s gid).2
  | .opUngroupSelected => (ungroupSelectedImages s).2
  | .opDeleteSelected => deleteSelectedImages s
  | .opClearImages => clearImages s
  | .opPointerDown shift space offset => handlePointerDown s shift space offset
  | .opPointerMove offset => handlePointerMove s offset
  | .opPointerUp => handlePointerUp s
  | .opWheel c d offset => handleWheel s c d offset

/-- Run a sequence of operations from a state. -/
def runOps (s : CanvasState) (ops : List Op) : CanvasState :=
  ops.foldl applyOp s

/-- Bidirectional image/group consistency (spec §3, §8): every set
`groupId` references a present group listing that image, and every listed
id belongs to a live image pointing back at that group. -/
def consistentB (s : CanvasState) : Bool :=
  s.images.all (fun img =>
    match img.groupId with
    | none => true
    | some g => s.groups.any (fun gr => gr.id == g && gr.imageIds.contains img.id)) &&
  s.groups.all (fun gr => gr.imageIds.all (fun i =>
    s.images.any (fun img => img.id == i && img.groupId == some gr.id)))

/-- Spec §3 group-size invariant: every group has at least 2 member ids. -/
def groupInv (s : CanvasState) : Prop :=
  ∀ g ∈ s.groups, 2 ≤ g.imageIds.length

/-- Run a sequence of wheel events (each `(ctrlOrMeta, deltaY, offset)`). -/
def runWheel (s : CanvasState) (events : List (Bool × ℚ × Point)) : CanvasState :=
  events.foldl (fun st e => handleWheel st e.1 e.2.1 e.2.2) s

/-- Spec-side description of what one pointer-move does to one node during
an image-drag session: absolute reposition from the snapshotted start
position by the world-space delta of the current pointer from the drag
origin (compare canvas.ts 166-177). -/
def dragMoveImage (ids : List String) (ips : List (String × Point))
    (delta : Point) (img : ImageNode) : ImageNode :=
  if ids.contains img.id then
    let initialPos := (ips.lookup img.id).getD ⟨0, 0⟩
    { img with x := initialPos.x + delta.x, y := initialPos.y + delta.y }
  else img

/-- A small concrete state used to instantiate invariant theorems: two
images forming one group, both selected. -/
def wstate2 : CanvasState := { initialState with
  images := [⟨"a", 0, 0, 10, 10, true, some "g"⟩, ⟨"b", 20, 0, 10, 10, true, some "g"⟩]
  groups := [⟨"g", ["a", "b"], "Group 1"⟩] }

/-- The image of `wstate2` hit by the shift-click at screen point (5,5). -/
def hitA : ImageNode := ⟨"a", 0, 0, 10, 10, true, some "g"⟩

/-- The other member of the group of `wstate2`. -/
def nodeB : ImageNode := ⟨"b", 20, 0, 10, 10, true, some "g"⟩

/-- A concrete state with an active marquee gesture and one already
selected image. -/
def wstate6 : CanvasState := { initialState with
  images := [⟨"a", 50, 50, 100, 100, true, none⟩]
  selectionState := { isSelecting := true, startPoint := ⟨0, 0⟩, currentPoint := ⟨0, 0⟩ } }

/-- A concrete state in the middle of an image-drag session. -/
def wstate7 : CanvasState := { initialState with
  images := [⟨"a", 50, 50, 100, 100, true, none⟩]
  dragState := { isDragging := true, startPoint := ⟨100, 100⟩,
                 draggedImages := some ["a"],
                 initialPositions := some [("a", ⟨50, 50⟩)] } }

/-- The operation sequence exhibiting the dangling `groupId`: add two
images, drag one aside, marquee-select both, group them, marquee-select
only one member, delete it. -/
def c1Trace : List Op := [
  .opAddImage (some (100, 100)) "a" 200 200,
  .opPointerDown false false ⟨100, 100⟩,
  .opPointerMove ⟨400, 400⟩,
  .opPointerUp,
  .opAddImage (some (100, 100)) "b" 200 200,
  .opPointerDown false false ⟨0, 0⟩,
  .opPointerMove ⟨500, 500⟩,
  .opPointerUp,
  .opGroupSelected "G1",
  .opPointerDown false false ⟨0, 0⟩,
  .opPointerMove ⟨300, 300⟩,
  .opPointerUp,
  .opDeleteSelected]

/-- State 1 of the dangling-group trace. -/
def c1S1 : CanvasState where
  images := [⟨"a", 50, 50, 100, 100, false, none⟩]
  groups := []
  viewport := ⟨1, 0, 0⟩
  dragState := { isDragging := false, startPoint := ⟨0, 0⟩ }
  selectionState := { isSelecting := false, startPoint := ⟨0, 0⟩, currentPoint := ⟨0, 0⟩ }
  isPanning := false
  needsRedraw := true
  hasSelectionCallback := false

/-- State 2 of the dangling-group trace. -/
def c1S2 : CanvasState where
  images := [⟨"a", 50, 50, 100, 100, true, none⟩]
  groups := []
  viewport := ⟨1, 0, 0⟩
  dragState := { isDragging := true, startPoint := ⟨100, 100⟩, draggedImages := some ["a"], initialPositions := some [("a", ⟨50, 50⟩)] }
  selectionState := { isSelecting := false, startPoint := ⟨0, 0⟩, currentPoint := ⟨0, 0⟩ }
  isPanning := false
  needsRedraw := true
  hasSelectionCallback := false

/-- State 3 of the dangling-group trace. -/
def c1S3 : CanvasState where
  images := [⟨"a", 350, 350, 100, 100, true, none⟩]
  groups := []
  viewport := ⟨1, 0, 0⟩
  dragState := { isDragging := true, startPoint := ⟨100, 100⟩, draggedImages := some ["a"], initialPositions := some [("a", ⟨50, 50⟩)] }
  selectionState := { isSelecting := false, startPoint := ⟨0, 0⟩, currentPoint := ⟨0, 0⟩ }
  isPanning := false
  needsRedraw := true
  hasSelectionCallback := false

/-- State 4 of the dangling-group trace. -/
def c1S4 : CanvasState where
  images := [⟨"a", 350, 350, 100, 100, true, none⟩]
  groups := []
  viewport := ⟨1, 0, 0⟩
  dragState := { isDragging := false, startPoint := ⟨0, 0⟩ }
  selectionState := { isSelecting := false, startPoint := ⟨0, 0⟩, currentPoint := ⟨0, 0⟩ }
  isPanning := false
  needsRedraw := true
  hasSelectionCallback := false

/-- State 5 of the dangling-group trace. -/
def c1S5 : CanvasState where
  images := [⟨"a", 350, 350, 100, 100, true, none⟩, ⟨"b", 50, 50, 100, 100, false, none⟩]
  groups := []
  viewport := ⟨1, 0, 0⟩
  dragState := { isDragging := false, startPoint := ⟨0, 0⟩ }
  selectionState := { isSelecting := false, startPoint := ⟨0, 0⟩, currentPoint := ⟨0, 0⟩ }
  isPanning := false
  needsRedraw := true
  hasSelectionCallback := false

/-- State 6 of the dangling-group trace. -/
def c1S6 : CanvasState where
  images := [⟨"a", 350, 350, 100, 100, false, none⟩, ⟨"b", 50, 50, 100, 100, false, none⟩]
  groups := []
  viewport := ⟨1, 0, 0⟩
  dragState := { isDragging := false, startPoint := ⟨0, 0⟩ }
  selectionState := { isSelecting := true, startPoint := ⟨0, 0⟩, currentPoint := ⟨0, 0⟩ }
  isPanning := false
  needsRedraw := true
  hasSelectionCallback := false

/-- State 7 of the dangling-group trace. -/
def c1S7 : CanvasState where
  images := [⟨"a", 350, 350, 100, 100, true, none⟩, ⟨"b", 50, 50, 100, 100, true, none⟩]
  groups := []
  viewport := ⟨1, 0, 0⟩
  dragState := { isDragging := false, startPoint := ⟨0, 0⟩ }
  selectionState := { isSelecting := true, startPoint := ⟨0, 0⟩, currentPoint := ⟨500, 500⟩ }
  isPanning := false
  needsRedraw := true
  hasSelectionCallback := false

/-- State 8 of the dangling-group trace. -/
def c1S8 : CanvasState where
  images := [⟨"a", 350, 350, 100, 100, true, none⟩, ⟨"b", 50, 50, 100, 100, true, none⟩]
  groups := []
  viewport := ⟨1, 0, 0⟩
  dragState := { isDragging := false, startPoint := ⟨0, 0⟩ }
  selectionState := { isSelecting := false, startPoint := ⟨0, 0⟩, currentPoint := ⟨500, 500⟩ }
  isPanning := false
  needsRedraw := true
  hasSelectionCallback := false

/-- State 9 of the dangling-group trace. -/
def c1S9 : CanvasState where
  images := [⟨"a", 350, 350, 100, 100, true, some "G1"⟩, ⟨"b", 50, 50, 100, 100, true, some "G1"⟩]
  groups := [⟨"G1", ["a", "b"], "Group 1"⟩]
  viewport := ⟨1, 0, 0⟩
  dragState := { isDragging := false, startPoint := ⟨0, 0⟩ }
  selectionState := { isSelecting := false, startPoint := ⟨0, 0⟩, currentPoint := ⟨500, 500⟩ }
  isPanning := false
  needsRedraw := true
  hasSelectionCallback := false

/-- State 10 of the dangling-group trace. -/
def c1S10 : CanvasState where
  images := [⟨"a", 350, 350, 100, 100, false, some "G1"⟩, ⟨"b", 50, 50, 100, 100, false, some "G1"⟩]
  groups := [⟨"G1", ["a", "b"], "Group 1"⟩]
  viewport := ⟨1, 0, 0⟩
  dragState := { isDragging := false, startPoint := ⟨0, 0⟩ }
  selectionState := { isSelecting := true, startPoint := ⟨0, 0⟩, currentPoint := ⟨0, 0⟩ }
  isPanning := false
  needsRedraw := true
  hasSelectionCallback := false

/-- State 11 of the dangling-group trace. -/
def c1S11 : CanvasState where
  images := [⟨"a", 350, 350, 100, 100, false, some "G1"⟩, ⟨"b", 50, 50, 100, 100, true, some "G1"⟩]
  groups := [⟨"G1", ["a", "b"], "Group 1"⟩]
  viewport := ⟨1, 0, 0⟩
  dragState := { isDragging := false, startPoint := ⟨0, 0⟩ }
  selectionState := { isSelecting := true, startPoint := ⟨0, 0⟩, currentPoint := ⟨300, 300⟩ }
  isPanning := false
  needsRedraw := true
  hasSelectionCallback := false

/-- State 12 of the dangling-group trace. -/
def c1S12 : CanvasState where
  images := [⟨"a", 350, 350, 100, 100, false, some "G1"⟩, ⟨"b", 50, 50, 100, 100, true, some "G1"⟩]
  groups := [⟨"G1", ["a", "b"], "Group 1"⟩]
  viewport := ⟨1, 0, 0⟩
  dragState := { isDragging := false, startPoint := ⟨0, 0⟩ }
  selectionState := { isSelecting := false, startPoint := ⟨0, 0⟩, currentPoint := ⟨300, 300⟩ }
  isPanning := false
  needsRedraw := true
  hasSelectionCallback := false

/-- State 13 of the dangling-group trace. -/
def c1S13 : CanvasState where
  images := [⟨"a", 350, 350, 100, 100, false, some "G1"⟩]
  groups := []
  viewport := ⟨1, 0, 0⟩
  dragState := { isDragging := false, startPoint := ⟨0, 0⟩ }
  selectionState := { isSelecting := false, startPoint := ⟨0, 0⟩, currentPoint := ⟨300, 300⟩ }
  isPanning := false
  needsRedraw := true
  hasSelectionCallback := false

/-!  Theorems. -/

/-- After `removeFromGroup`, every group in the collection has at least 2
members (groups filtered down to fewer are dropped). -/
theorem removeFromGroup_groupInv (s : CanvasState) (imageId : String) :
    groupInv (removeFromGroup s imageId) := by
  intro g hg
  unfold removeFromGroup at hg
  simp only [List.mem_filter, decide_eq_true_eq] at hg
  omega

/-- Folding the per-deleted-image group removal step preserves the
group-size invariant. -/
theorem foldRemove_groupInv (L : List ImageNode) (s : CanvasState) (h : groupInv s) :
    groupInv (L.foldl
      (fun st img => if img.groupId.isSome then removeFromGroup st img.id else st) s) := by
  induction L generalizing s with
  | nil => simpa using h
  | cons a L ih =>
      simp only [List.foldl_cons]
      by_cases ha : a.groupId.isSome
      · rw [if_pos ha]
        exact ih _ (removeFromGroup_groupInv s a.id)
      · rw [if_neg ha]
        exact ih _ h

/-- The state component of the `ungroupSelectedImages` fold coincides with
the plain removal fold. -/
theorem ungroup_fold_snd (L : List ImageNode) (acc : List String × CanvasState) :
    (L.foldl (fun acc img =>
        if img.groupId.isSome then (acc.1 ++ [img.id], removeFromGroup acc.2 img.id) else acc)
      acc).2 =
      L.foldl (fun st img => if img.groupId.isSome then removeFromGroup st img.id else st)
        acc.2 := by
  induction L generalizing acc with
  | nil => rfl
  | cons a L ih =>
      simp only [List.foldl_cons]
      by_cases ha : a.groupId.isSome
      · rw [if_pos ha, if_pos ha]
        exact ih _
      · rw [if_neg ha, if_neg ha]
        exact ih _

/-- C2: any operation that removes images from groups leaves no group with
fewer than 2 member ids — `removeFromGroup` itself establishes this
unconditionally (a group that would drop below 2 is dropped from the
collection), and image deletion, ungrouping and regrouping preserve it. -/
theorem group_min_two (s : CanvasState) (imageId gid : String) :
    groupInv (removeFromGroup s imageId) ∧
    (groupInv s → groupInv (deleteSelectedImages s)) ∧
    (groupInv s → groupInv (ungroupSelectedImages s).2) ∧
    (groupInv s → groupInv (groupSelectedImages s gid).2) := by
  refine ⟨removeFromGroup_groupInv s imageId, ?_, ?_, ?_⟩
  · intro h
    simp only [deleteSelectedImages]
    exact foldRemove_groupInv _ _ h
  · intro h
    simp only [ungroupSelectedImages, ungroup_fold_snd]
    exact foldRemove_groupInv _ _ h
  · intro h
    simp only [groupSelectedImages]
    by_cases hlen : (s.images.filter (fun img => img.selected)).length < 2
    · rw [if_pos hlen]
      exact h
    · rw [if_neg hlen]
      intro g hg
      rcases List.mem_append.mp hg with hg1 | hg2
      · exact foldRemove_groupInv _ _ h g hg1
      · rcases List.mem_singleton.mp hg2 with rfl
        simp only [List.length_map]
        omega

/-- Embeds `clearGroupIdFirst` changes no id and no selection flag. -/
theorem clearGroupIdFirst_sig (l : List ImageNode) (i : String) :
    (clearGroupIdFirst l i).map (fun img => (img.id, img.selected)) =
      l.map (fun img => (img.id, img.selected)) := by
  induction l with
  | nil => rfl
  | cons a l ih =>
      by_cases h : a.id = i
      · simp [clearGroupIdFirst, h]
      · simp [clearGroupIdFirst, h, ih]

/-- The removal fold changes no image id and no selection flag. -/
theorem foldRemove_images_sig (L : List ImageNode) (s : CanvasState) :
    ((L.foldl (fun st img => if img.groupId.isSome then removeFromGroup st img.id else st)
        s).images).map (fun img => (img.id, img.selected)) =
      s.images.map (fun img => (img.id, img.selected)) := by
  induction L generalizing s with
  | nil => rfl
  | cons a L ih =>
      simp only [List.foldl_cons]
      by_cases ha : a.groupId.isSome
      · rw [if_pos ha, ih]
        exact clearGroupIdFirst_sig s.images a.id
      · rw [if_neg ha]
        exact ih s

/-- Every group surviving `removeFromGroup` stems from a group of the
previous state: same id, a sub-collection of member ids, and the removed
id is gone. -/
theorem removeFromGroup_groups_origin (s : CanvasState) (i : String) :
    ∀ g ∈ (removeFromGroup s i).groups,
      ∃ g0 ∈ s.groups, g.id = g0.id ∧ g.imageIds ⊆ g0.imageIds ∧ i ∉ g.imageIds := by
  intro g hg
  unfold removeFromGroup at hg
  simp only [List.mem_filter, List.mem_map] at hg
  obtain ⟨⟨g0, hg0, rfl⟩, _⟩ := hg
  refine ⟨g0, hg0, rfl, fun a ha => (List.mem_filter.mp ha).1, ?_⟩
  intro hmem
  simp only [List.mem_filter, decide_eq_true_eq] at hmem
  exact hmem.2 rfl

/-- Every group surviving the removal fold stems from a group of the
starting state, with the same id and a sub-collection of member ids. -/
theorem foldRemove_groups_origin (L : List ImageNode) (s : CanvasState) :
    ∀ g ∈ (L.foldl (fun st img => if img.groupId.isSome then removeFromGroup st img.id else st)
        s).groups,
      ∃ g0 ∈ s.groups, g.id = g0.id ∧ g.imageIds ⊆ g0.imageIds := by
  induction L generalizing s with
  | nil =>
      intro g hg
      exact ⟨g, hg, rfl, fun a ha => ha⟩
  | cons a L ih =>
      simp only [List.foldl_cons]
      by_cases ha : a.groupId.isSome
      · rw [if_pos ha]
        intro g hg
        obtain ⟨gm, hgm, hid, hsub⟩ := ih (removeFromGroup s a.id) g hg
        obtain ⟨g0, hg0, hid0, hsub0, _⟩ := removeFromGroup_groups_origin s a.id gm hgm
        exact ⟨g0, hg0, hid.trans hid0, hsub.trans hsub0⟩
      · rw [if_neg ha]
        exact ih s

/-- Every image processed by the removal fold has its id removed from
every surviving group. -/
theorem foldRemove_extracts (L : List ImageNode) (s : CanvasState) :
    ∀ g ∈ (L.foldl (fun st img => if img.groupId.isSome then removeFromGroup st img.id else st)
        s).groups,
      ∀ img ∈ L, img.groupId.isSome = true → img.id ∉ g.imageIds := by
  induction L generalizing s with
  | nil =>
      intro g _ img hmem
      exact absurd hmem (List.not_mem_nil img)
  | cons a L ih =>
      simp only [List.foldl_cons]
      intro g hg img hmem hsome
      rcases List.mem_cons.mp hmem with rfl | hL
      · rw [if_pos hsome] at hg
        obtain ⟨gm, hgm, _, hsub⟩ := foldRemove_groups_origin L (removeFromGroup s img.id) g hg
        obtain ⟨_, _, _, _, hni⟩ := removeFromGroup_groups_origin s img.id gm hgm
        exact fun hin => hni (hsub hin)
      · by_cases ha : a.groupId.isSome
        · rw [if_pos ha] at hg
          exact ih (removeFromGroup s a.id) g hg img hL hsome
        · rw [if_neg ha] at hg
          exact ih s g hg img hL hsome

/-- C8: `groupSelectedImages` is a no-op returning `none` when fewer than
2 images are selected; otherwise it returns the new group id, appends
exactly one group whose `imageIds` are exactly the selected images' ids,
extracts every selected grouped image from its previous group under the
shrink/dissolve rule, and sets every selected image's `groupId` to the new
id. -/
theorem groupSelectedImages_spec (s : CanvasState) (gid : String) :
    ((s.images.filter (fun img => img.selected)).length < 2 →
        groupSelectedImages s gid = (none, s)) ∧
    (2 ≤ (s.images.filter (fun img => img.selected)).length →
      (groupSelectedImages s gid).1 = some gid ∧
      (∃ rest nm,
        (groupSelectedImages s gid).2.groups =
          rest ++ [⟨gid, (s.images.filter (fun img => img.selected)).map (fun img => img.id), nm⟩] ∧
        (∀ g ∈ rest, ∃ g0 ∈ s.groups, g.id = g0.id ∧ g.imageIds ⊆ g0.imageIds) ∧
        (∀ g ∈ rest, ∀ img ∈ s.images.filter (fun img => img.selected),
            img.groupId.isSome = true → img.id ∉ g.imageIds) ∧
        (groupInv s → ∀ g ∈ rest, 2 ≤ g.imageIds.length)) ∧
      (∀ img ∈ (groupSelectedImages s gid).2.images, img.selected = true →
          img.groupId = some gid)) := by
  constructor
  · intro hlt
    simp only [groupSelectedImages, if_pos hlt]
  · intro hge
    have hlt : ¬(s.images.filter (fun img => img.selected)).length < 2 := not_lt.mpr hge
    simp only [groupSelectedImages, if_neg hlt]
    refine ⟨trivial, ⟨_, _, rfl, ?_, ?_, ?_⟩, ?_⟩
    · exact foldRemove_groups_origin _ s
    · exact foldRemove_extracts _ s
    · intro h
      exact foldRemove_groupInv _ s h
    · intro img hmem hsel
      simp only [List.mem_map] at hmem
      obtain ⟨im, him, rfl⟩ := hmem
      by_cases hc : ((s.images.filter (fun img => img.selected)).map
          (fun img => img.id)).contains im.id
      · simp only [if_pos hc]
      · rw [if_neg hc] at hsel ⊢
        exfalso
        apply hc
        have hsig : (im.id, im.selected) ∈ s.images.map (fun img => (img.id, img.selected)) := by
          rw [← foldRemove_images_sig (s.images.filter (fun img => img.selected)) s]
          exact List.mem_map_of_mem _ him
        simp only [List.mem_map] at hsig
        obtain ⟨im0, him0, heq⟩ := hsig
        have hid : im0.id = im.id := congrArg Prod.fst heq
        have hsel0 : im0.selected = im.selected := congrArg Prod.snd heq
        rw [List.elem_iff]
        refine hid ▸ List.mem_map_of_mem _ ?_
        rw [List.mem_filter]
        exact ⟨him0, by rw [hsel0, hsel]⟩

/-- Witness for `groupSelectedImages_spec` at a concrete state. -/
theorem groupSelectedImages_spec_witness :
    2 ≤ (wstate2.images.filter (fun img => img.selected)).length ∧
      (groupSelectedImages wstate2 "G2").1 = some "G2" :=
  ⟨by decide, ((groupSelectedImages_spec wstate2 "G2").2 (by decide)).1⟩

/-- Witness for `group_min_two` at a concrete state. -/
theorem group_min_two_witness :
    groupInv (removeFromGroup wstate2 "a") ∧
    groupInv (deleteSelectedImages wstate2) ∧
    groupInv (ungroupSelectedImages wstate2).2 ∧
    groupInv ((groupSelectedImages wstate2 "G2").2) :=
  ⟨(group_min_two wstate2 "a" "G2").1,
   (group_min_two wstate2 "a" "G2").2.1 (by unfold groupInv; decide),
   (group_min_two wstate2 "a" "G2").2.2.1 (by unfold groupInv; decide),
   (group_min_two wstate2 "a" "G2").2.2.2 (by unfold groupInv; decide)⟩

/-- C10: `clearImages` empties the image list but leaves the groups
collection (with all its `imageIds` entries), the viewport, and the
selection-callback registration unchanged. -/
theorem clearImages_frame (s : CanvasState) :
    (clearImages s).images = [] ∧
    (clearImages s).groups = s.groups ∧
    (clearImages s).viewport = s.viewport ∧
    (clearImages s).hasSelectionCallback = s.hasSelectionCallback := by
  refine ⟨rfl, rfl, rfl, rfl⟩

/-- The one-coordinate algebra behind cursor-anchored zooming. -/
theorem zoom_math (sc tx w ns : ℚ) (hsc : sc ≠ 0) (hns : ns ≠ 0) :
    (w - (tx - (w - tx) / sc * (ns - sc))) / ns = (w - tx) / sc := by
  field_simp
  ring

/-- C4: with the zoom modifier held, a wheel event leaves the world point
under the cursor unchanged: `screenToWorld` at the same screen point is
equal before and after the scale-and-translate update, in exact
arithmetic, for both zoom directions and under clamping. -/
theorem zoom_anchors_cursor (s : CanvasState) (deltaY : ℚ) (p : Point)
    (hscale : 0 < s.viewport.scale) :
    screenToWorld (handleWheel s true deltaY p).viewport p =
      screenToWorld s.viewport p := by
  have hns : (0 : ℚ) <
      max (1/10) (min 5 (s.viewport.scale * (if deltaY > 0 then (9:ℚ)/10 else 11/10))) :=
    lt_of_lt_of_le (by norm_num) (le_max_left _ _)
  show Point.mk _ _ = Point.mk _ _
  rw [Point.mk.injEq]
  exact ⟨zoom_math _ _ _ _ hscale.ne' hns.ne', zoom_math _ _ _ _ hscale.ne' hns.ne'⟩

/-- Witness for `zoom_anchors_cursor` at a concrete state and event. -/
theorem zoom_anchors_cursor_witness :
    0 < initialState.viewport.scale ∧
      screenToWorld (handleWheel initialState true 1 ⟨50, 50⟩).viewport ⟨50, 50⟩ =
        screenToWorld initialState.viewport ⟨50, 50⟩ :=
  ⟨by norm_num [initialState], zoom_anchors_cursor initialState 1 ⟨50, 50⟩ (by norm_num [initialState])⟩

/-- One wheel event keeps the scale inside `[0.1, 5.0]` when it was inside. -/
theorem handleWheel_scale_bounds (s : CanvasState) (c : Bool) (d : ℚ) (p : Point)
    (hlo : 1/10 ≤ s.viewport.scale) (hhi : s.viewport.scale ≤ 5) :
    1/10 ≤ (handleWheel s c d p).viewport.scale ∧
      (handleWheel s c d p).viewport.scale ≤ 5 := by
  cases c with
  | false =>
      simp only [handleWheel, Bool.false_eq_true, if_false]
      exact ⟨hlo, hhi⟩
  | true =>
      refine ⟨?_, ?_⟩ <;> show _ ≤ _ <;> simp only [handleWheel, if_pos rfl]
      · exact le_max_left _ _
      · exact max_le (by norm_num) (min_le_left _ _)

/-- C5: over any sequence of wheel events, starting from a scale inside
`[0.1, 5.0]`, the viewport scale is inside `[0.1, 5.0]` after every prefix
of the sequence. -/
theorem wheel_scale_clamped (events : List (Bool × ℚ × Point)) (s : CanvasState)
    (hlo : 1/10 ≤ s.viewport.scale) (hhi : s.viewport.scale ≤ 5) (n : ℕ) :
    1/10 ≤ (runWheel s (events.take n)).viewport.scale ∧
      (runWheel s (events.take n)).viewport.scale ≤ 5 := by
  induction events generalizing s n with
  | nil =>
      simp only [runWheel, List.take_nil, List.foldl_nil]
      exact ⟨hlo, hhi⟩
  | cons e es ih =>
      cases n with
      | zero =>
          simp only [runWheel, List.take_zero, List.foldl_nil]
          exact ⟨hlo, hhi⟩
      | succ m =>
          have hb := handleWheel_scale_bounds s e.1 e.2.1 e.2.2 hlo hhi
          simp only [runWheel, List.take_succ_cons, List.foldl_cons]
          exact ih (handleWheel s e.1 e.2.1 e.2.2) hb.1 hb.2 m

/-- Witness for `wheel_scale_clamped` at a concrete state and events. -/
theorem wheel_scale_clamped_witness :
    (1/10 ≤ initialState.viewport.scale ∧ initialState.viewport.scale ≤ 5) ∧
      (1/10 ≤ (runWheel initialState ([(true, 1, ⟨50, 50⟩), (true, -1, ⟨0, 0⟩)].take 2)).viewport.scale ∧
        (runWheel initialState ([(true, 1, ⟨50, 50⟩), (true, -1, ⟨0, 0⟩)].take 2)).viewport.scale ≤ 5) :=
  ⟨⟨by norm_num [initialState], by norm_num [initialState]⟩,
    wheel_scale_clamped [(true, 1, ⟨50, 50⟩), (true, -1, ⟨0, 0⟩)] initialState
      (by norm_num [initialState]) (by norm_num [initialState]) 2⟩

/-- During an active marquee (and no drag), a pointer-move updates the
current point and applies the additive marquee pass over the images. -/
theorem handlePointerMove_marquee (s : CanvasState) (p : Point)
    (hdrag : s.dragState.isDragging = false)
    (hsel : s.selectionState.isSelecting = true) :
    handlePointerMove s p =
      { s with
        selectionState := { s.selectionState with currentPoint := screenToWorld s.viewport p }
        images := s.images.map (fun img =>
          if rectanglesIntersect
              (getMarqueeRect { s.selectionState with currentPoint := screenToWorld s.viewport p })
              (imageRect img)
            then { img with selected := true } else img)
        needsRedraw := true } := by
  simp only [handlePointerMove, hdrag, hsel, Bool.false_and, Bool.and_false,
    Bool.false_eq_true, if_false, if_true, updateMarqueeSelection]

/-- C6: while a marquee is active, each pointer-move leaves every image's
`selected` flag equal to its old value or-ed with the intersection test
against the current marquee rectangle — so it never deselects — and over
any sequence of moves an image once selected stays selected. -/
theorem marquee_selection_monotone (s : CanvasState) (moves : List Point)
    (hdrag : s.dragState.isDragging = false)
    (hsel : s.selectionState.isSelecting = true) :
    (∀ p : Point, ∀ k : ℕ,
      ((handlePointerMove s p).images[k]?).map (fun img => img.selected) =
        (s.images[k]?).map (fun img => img.selected ||
          rectanglesIntersect
            (getMarqueeRect { s.selectionState with currentPoint := screenToWorld s.viewport p })
            (imageRect img))) ∧
    (∀ k : ℕ,
      (s.images[k]?).map (fun img => img.selected) = some true →
        ((moves.foldl handlePointerMove s).images[k]?).map (fun img => img.selected) =
          some true) := by
  have step : ∀ (t : CanvasState) (p : Point), t.dragState.isDragging = false →
      t.selectionState.isSelecting = true → ∀ k : ℕ,
      ((handlePointerMove t p).images[k]?).map (fun img => img.selected) =
        (t.images[k]?).map (fun img => img.selected ||
          rectanglesIntersect
            (getMarqueeRect { t.selectionState with currentPoint := screenToWorld t.viewport p })
            (imageRect img)) := by
    intro t p hd hs k
    rw [handlePointerMove_marquee t p hd hs]
    show ((t.images.map _)[k]?).map _ = _
    rw [List.getElem?_map]
    cases t.images[k]? with
    | none => rfl
    | some img =>
        cases hr : rectanglesIntersect
            (getMarqueeRect { t.selectionState with currentPoint := screenToWorld t.viewport p })
            (imageRect img) with
        | false => simp [hr]
        | true => simp [hr]
  refine ⟨fun p => step s p hdrag hsel, ?_⟩
  induction moves generalizing s with
  | nil =>
      intro k h
      simpa using h
  | cons p ps ih =>
      intro k h
      have hd2 : (handlePointerMove s p).dragState.isDragging = false := by
        rw [handlePointerMove_marquee s p hdrag hsel]
        exact hdrag
      have hs2 : (handlePointerMove s p).selectionState.isSelecting = true := by
        rw [handlePointerMove_marquee s p hdrag hsel]
        exact hsel
      have h2 : ((handlePointerMove s p).images[k]?).map (fun img => img.selected) =
          some true := by
        rw [step s p hdrag hsel k]
        cases hk : s.images[k]? with
        | none => rw [hk] at h; exact absurd h (by simp)
        | some img =>
            rw [hk] at h
            have : img.selected = true := by simpa using h
            simp [this]
      simpa using ih (handlePointerMove s p) hd2 hs2 k h2

/-- Witness for `marquee_selection_monotone`: an already selected image
stays selected across marquee moves. -/
theorem marquee_selection_monotone_witness :
    wstate6.dragState.isDragging = false ∧ wstate6.selectionState.isSelecting = true ∧
    (wstate6.images[0]?).map (fun img => img.selected) = some true ∧
    ((([⟨200, 200⟩, ⟨10, 10⟩] : List Point).foldl handlePointerMove wstate6).images[0]?).map
        (fun img => img.selected) = some true :=
  ⟨rfl, rfl, rfl,
    (marquee_selection_monotone wstate6 [⟨200, 200⟩, ⟨10, 10⟩] rfl rfl).2 0 rfl⟩

/-- During an image-drag session, a pointer-move repositions the dragged
nodes absolutely: snapshotted start position plus the world-space delta of
the current pointer from the drag origin. -/
theorem handlePointerMove_drag (s : CanvasState) (p : Point) (ids : List String)
    (ips : List (String × Point))
    (hpan : s.isPanning = false)
    (hdrag : s.dragState.isDragging = true)
    (hdi : s.dragState.draggedImages = some ids)
    (hip : s.dragState.initialPositions = some ips) :
    handlePointerMove s p =
      { s with
        images := s.images.map (dragMoveImage ids ips
          ⟨(screenToWorld s.viewport p).x - s.dragState.startPoint.x,
           (screenToWorld s.viewport p).y - s.dragState.startPoint.y⟩)
        needsRedraw := true } := by
  simp only [handlePointerMove, hpan, hdrag, hdi, hip, Bool.false_and, Bool.and_false,
    Bool.false_eq_true, if_false, Option.isSome_some, Bool.and_self, Bool.and_true,
    Bool.true_and, if_true, Option.getD_some]
  congr 1

/-- Repositioning twice from the same snapshots equals repositioning once
by the second delta. -/
theorem dragMoveImage_comp (ids : List String) (ips : List (String × Point))
    (d1 d2 : Point) (img : ImageNode) :
    dragMoveImage ids ips d2 (dragMoveImage ids ips d1 img) =
      dragMoveImage ids ips d2 img := by
  by_cases hm : img.id ∈ ids
  · simp [dragMoveImage, hm]
  · simp [dragMoveImage, hm]

/-- The image list after a nonempty sequence of drag moves, as a function
of the last pointer position only. -/
theorem drag_fold_images (moves : List Point) :
    ∀ (s : CanvasState) (hne : moves ≠ []) (ids : List String)
      (ips : List (String × Point)),
      s.isPanning = false →
      s.dragState.isDragging = true →
      s.dragState.draggedImages = some ids →
      s.dragState.initialPositions = some ips →
      (moves.foldl handlePointerMove s).images =
        s.images.map (dragMoveImage ids ips
          ⟨(screenToWorld s.viewport (moves.getLast hne)).x - s.dragState.startPoint.x,
           (screenToWorld s.viewport (moves.getLast hne)).y - s.dragState.startPoint.y⟩) := by
  induction moves with
  | nil => intro s hne; exact absurd rfl hne
  | cons p ps ih =>
      intro s hne ids ips hpan hdrag hdi hip
      have hstep := handlePointerMove_drag s p ids ips hpan hdrag hdi hip
      cases ps with
      | nil =>
          simp only [List.foldl_cons, List.foldl_nil, List.getLast_singleton]
          rw [hstep]
      | cons q qs =>
          have hne2 : (q :: qs) ≠ [] := List.cons_ne_nil q qs
          have hpan2 : (handlePointerMove s p).isPanning = false := by rw [hstep]; exact hpan
          have hdrag2 : (handlePointerMove s p).dragState.isDragging = true := by
            rw [hstep]; exact hdrag
          have hdi2 : (handlePointerMove s p).dragState.draggedImages = some ids := by
            rw [hstep]; exact hdi
          have hip2 : (handlePointerMove s p).dragState.initialPositions = some ips := by
            rw [hstep]; exact hip
          have hfold : ((q :: qs).foldl handlePointerMove (handlePointerMove s p)).images =
              (handlePointerMove s p).images.map (dragMoveImage ids ips
                ⟨(screenToWorld (handlePointerMove s p).viewport ((q :: qs).getLast hne2)).x -
                    (handlePointerMove s p).dragState.startPoint.x,
                  (screenToWorld (handlePointerMove s p).viewport ((q :: qs).getLast hne2)).y -
                    (handlePointerMove s p).dragState.startPoint.y⟩) :=
            ih (handlePointerMove s p) hne2 ids ips hpan2 hdrag2 hdi2 hip2
          have hvp : (handlePointerMove s p).viewport = s.viewport := by rw [hstep]
          have hsp : (handlePointerMove s p).dragState.startPoint =
              s.dragState.startPoint := by rw [hstep]
          have hlast : (p :: q :: qs).getLast hne = (q :: qs).getLast hne2 :=
            List.getLast_cons hne2
          rw [List.foldl_cons, hfold, hvp, hsp, hlast, hstep]
          show (s.images.map _).map _ = _
          rw [List.map_map]
          exact List.map_congr_left (fun img _ => dragMoveImage_comp ids ips _ _ img)

/-- C7: after every pointer-move of a drag session each dragged node sits
at its snapshotted start position plus the world delta between the last
pointer position and the drag origin; in particular the outcome only
depends on the final pointer position, not on the intermediate moves. -/
theorem drag_positions_absolute (s : CanvasState) (ids : List String)
    (ips : List (String × Point)) (moves : List Point) (hne : moves ≠ [])
    (hpan : s.isPanning = false)
    (hdrag : s.dragState.isDragging = true)
    (hdi : s.dragState.draggedImages = some ids)
    (hip : s.dragState.initialPositions = some ips) :
    (moves.foldl handlePointerMove s).images =
      s.images.map (dragMoveImage ids ips
        ⟨(screenToWorld s.viewport (moves.getLast hne)).x - s.dragState.startPoint.x,
         (screenToWorld s.viewport (moves.getLast hne)).y - s.dragState.startPoint.y⟩) ∧
    (moves.foldl handlePointerMove s).images =
      (handlePointerMove s (moves.getLast hne)).images := by
  have h1 := drag_fold_images moves s hne ids ips hpan hdrag hdi hip
  refine ⟨h1, ?_⟩
  rw [h1, handlePointerMove_drag s (moves.getLast hne) ids ips hpan hdrag hdi hip]

/-- Witness for `drag_positions_absolute`: two moves land the node where a
single move to the final point would. -/
theorem drag_positions_absolute_witness :
    ([⟨400, 400⟩, ⟨150, 150⟩] : List Point) ≠ [] ∧
    wstate7.isPanning = false ∧
    wstate7.dragState.isDragging = true ∧
    wstate7.dragState.draggedImages = some ["a"] ∧
    wstate7.dragState.initialPositions = some [("a", ⟨50, 50⟩)] ∧
    (([⟨400, 400⟩, ⟨150, 150⟩] : List Point).foldl handlePointerMove wstate7).images =
      (handlePointerMove wstate7 ⟨150, 150⟩).images := by
  refine ⟨by simp, rfl, rfl, rfl, rfl, ?_⟩
  have h := (drag_positions_absolute wstate7 ["a"] [("a", ⟨50, 50⟩)]
    [⟨400, 400⟩, ⟨150, 150⟩] (by simp) rfl rfl rfl rfl).2
  simpa using h

/-- C9: `addImage` rejects with an error and leaves the state unchanged on
decode failure; on success it appends exactly one node, with width capped
at 320 (height scaled proportionally when capped, natural size otherwise),
centered on the current visible viewport center, and resolves with it. -/
theorem addImage_spec (s : CanvasState) (newId : String) (rectW rectH : ℚ) :
    (addImage s none newId rectW rectH =
        (.error "Failed to load image", s)) ∧
    ∀ naturalW naturalH : ℚ,
      ∃ node : ImageNode,
        addImage s (some (naturalW, naturalH)) newId rectW rectH =
          (.ok node, { s with images := s.images ++ [node], needsRedraw := true }) ∧
        node.w ≤ 320 ∧
        (naturalW ≤ 320 → node.w = naturalW ∧ node.h = naturalH) ∧
        (320 < naturalW → node.w = 320 ∧ node.h = naturalH * 320 / naturalW) ∧
        node.x + node.w / 2 = (screenToWorld s.viewport ⟨rectW / 2, rectH / 2⟩).x ∧
        node.y + node.h / 2 = (screenToWorld s.viewport ⟨rectW / 2, rectH / 2⟩).y ∧
        node.id = newId ∧ node.selected = false ∧ node.groupId = none := by
  refine ⟨rfl, ?_⟩
  intro naturalW naturalH
  by_cases h : naturalW > 320
  · simp only [addImage, if_pos h]
    refine ⟨_, rfl, le_refl _, ?_, fun _ => ⟨rfl, rfl⟩, by ring, by ring, rfl, rfl, rfl⟩
    intro hle
    exact absurd h (not_lt.mpr hle)
  · simp only [addImage, if_neg h]
    refine ⟨_, rfl, not_lt.mp h, fun _ => ⟨rfl, rfl⟩, ?_, by ring, by ring, rfl, rfl, rfl⟩
    intro hlt
    exact absurd hlt h

/-- Witness for `addImage_spec`: a 640×480 decode gets capped to 320×240. -/
theorem addImage_spec_witness :
    (320 : ℚ) < 640 ∧
    ∃ node : ImageNode,
      addImage initialState (some (640, 480)) "n" 200 200 =
        (.ok node, { initialState with images := initialState.images ++ [node], needsRedraw := true }) ∧
      node.w = 320 ∧ node.h = 480 * 320 / 640 := by
  obtain ⟨node, heq, _, _, hlt, _, _, _, _, _⟩ :=
    (addImage_spec initialState "n" 200 200).2 640 480
  exact ⟨by norm_num, node, heq, (hlt (by norm_num)).1, (hlt (by norm_num)).2⟩

/-- C3 (refuted as stated): in `wstate2` all members of the group are
selected before the shift-click, so the claim predicts the whole group
becomes deselected; the code leaves every member selected. -/
theorem shift_click_whole_group_stays :
    wstate2.images.map (fun img => img.selected) = [true, true] ∧
    (handlePointerDown wstate2 true false ⟨5, 5⟩).images.map (fun img => img.selected) =
      [true, true] := by
  constructor
  · rfl
  · norm_num [handlePointerDown, getImageAt, screenToWorld, toggleGroup, clearSelection,
      selectGroup, wstate2, initialState]
    all_goals decide

/-- Embeds `Bool.all` congruence over list membership. -/
theorem all_congr_mem (l : List ImageNode) (p q : ImageNode → Bool)
    (h : ∀ a ∈ l, p a = q a) : l.all p = l.all q := by
  induction l with
  | nil => rfl
  | cons a l ih =>
      simp only [List.all_cons]
      rw [h a (List.mem_cons_self a l), ih (fun b hb => h b (List.mem_cons_of_mem a hb))]

/-- Embeds `all` after mapping a groupId-preserving function commutes with
filtering on groupId. -/
theorem filter_map_all (f : ImageNode → ImageNode) (p q : ImageNode → Bool)
    (hf : ∀ img, p (f img) = p img) (l : List ImageNode) :
    ((l.map f).filter p).all q = (l.filter p).all (fun img => q (f img)) := by
  induction l with
  | nil => rfl
  | cons a l ih =>
      simp only [List.map_cons, List.filter_cons, hf]
      cases hpa : p a with
      | false =>
          simp only [hpa, Bool.false_eq_true, if_false]
          exact ih
      | true =>
          simp only [hpa, if_true, List.all_cons, ih]

/-- On a shift pointer-down that hits an image, the resulting image list is
the one produced by toggling the hit image and then toggling its group. -/
theorem handlePointerDown_shift_images (s : CanvasState) (p : Point) (hit : ImageNode)
    (hhit : getImageAt s (screenToWorld s.viewport p) = some hit) :
    (handlePointerDown s true false p).images =
      (toggleGroup { s with images := s.images.map (fun img =>
          if img.id = hit.id then { img with selected := !img.selected } else img) } hit).images := by
  simp only [handlePointerDown, hhit, Bool.not_true, Bool.false_and, Bool.false_eq_true,
    if_false, if_true]
  split <;> rfl

/-- C3 (amended): on shift pointer-down over a grouped image every group
member ends with the same `selected` value, namely the negation of whether
all members are selected *after* the hit image's own toggle, not before
the click. -/
theorem shift_click_group_toggle (s : CanvasState) (p : Point) (hit : ImageNode)
    (g : String)
    (hnodup : (s.images.map (fun img => img.id)).Nodup)
    (hhit : getImageAt s (screenToWorld s.viewport p) = some hit)
    (hg : hit.groupId = some g) :
    ∀ img ∈ (handlePointerDown s true false p).images,
      img.groupId = some g →
        img.selected = !((s.images.filter (fun i => i.groupId = some g)).all
          (fun i => if i.id = hit.id then !hit.selected else i.selected)) := by
  have hmem : hit ∈ s.images := by
    have h1 := List.mem_of_find?_eq_some hhit
    exact List.mem_reverse.mp h1
  have hinj : ∀ im ∈ s.images, im.id = hit.id → im = hit := by
    intro im him heq
    exact List.inj_on_of_nodup_map hnodup him hmem heq
  rw [handlePointerDown_shift_images s p hit hhit]
  intro img himg hgid
  set toggleF := fun img : ImageNode =>
    if img.id = hit.id then { img with selected := !img.selected } else img with htoggleF
  have hpres : ∀ im : ImageNode, (toggleF im).groupId = im.groupId := by
    intro im
    by_cases h : im.id = hit.id <;> simp [htoggleF, h]
  simp only [toggleGroup, hg] at himg hgid ⊢
  simp only [List.mem_map] at himg
  obtain ⟨im1, him1, rfl⟩ := himg
  by_cases hb : im1.groupId = some g
  · rw [if_pos hb]
    simp only
    congr 1
    rw [filter_map_all toggleF _ _ (fun im => by rw [hpres]) s.images]
    apply all_congr_mem
    intro a ha
    by_cases hida : a.id = hit.id
    · have : a = hit := hinj a (List.mem_of_mem_filter ha) hida
      subst this
      simp [htoggleF, hida]
    · simp [htoggleF, hida]
  · exfalso
    rw [if_neg hb] at hgid
    exact hb hgid

/-- C1 (refuted): after the concrete trace `c1Trace` of externally
triggered operations, the surviving image still carries `groupId = "G1"`
although group `G1` has been dissolved, so the bidirectional image/group
consistency invariant is violated. -/
theorem dangling_group_reference :
    (runOps initialState c1Trace).groups = [] ∧
    (runOps initialState c1Trace).images.map (fun img => (img.id, img.groupId)) =
      [("a", some "G1")] ∧
    consistentB (runOps initialState c1Trace) = false := by
  have h1 : applyOp initialState (Op.opAddImage (some (100, 100)) "a" 200 200) = c1S1 := by
    norm_num [applyOp, addImage, handlePointerDown, handlePointerMove, handlePointerUp, deleteSelectedImages, groupSelectedImages, removeFromGroup, clearGroupIdFirst, updateMarqueeSelection, getMarqueeRect, rectanglesIntersect, imageRect, getImageAt, screenToWorld, clearSelection, selectGroup, toggleGroup, initialState, initialState, c1S1]
  have h2 : applyOp c1S1 (Op.opPointerDown false false ⟨100, 100⟩) = c1S2 := by
    norm_num [applyOp, addImage, handlePointerDown, handlePointerMove, handlePointerUp, deleteSelectedImages, groupSelectedImages, removeFromGroup, clearGroupIdFirst, updateMarqueeSelection, getMarqueeRect, rectanglesIntersect, imageRect, getImageAt, screenToWorld, clearSelection, selectGroup, toggleGroup, initialState, c1S1, c1S2]
  have h3 : applyOp c1S2 (Op.opPointerMove ⟨400, 400⟩) = c1S3 := by
    norm_num [applyOp, addImage, handlePointerDown, handlePointerMove, handlePointerUp, deleteSelectedImages, groupSelectedImages, removeFromGroup, clearGroupIdFirst, updateMarqueeSelection, getMarqueeRect, rectanglesIntersect, imageRect, getImageAt, screenToWorld, clearSelection, selectGroup, toggleGroup, initialState, c1S2, c1S3]
  have h4 : applyOp c1S3 (Op.opPointerUp) = c1S4 := by
    norm_num [applyOp, addImage, handlePointerDown, handlePointerMove, handlePointerUp, deleteSelectedImages, groupSelectedImages, removeFromGroup, clearGroupIdFirst, updateMarqueeSelection, getMarqueeRect, rectanglesIntersect, imageRect, getImageAt, screenToWorld, clearSelection, selectGroup, toggleGroup, initialState, c1S3, c1S4]
  have h5 : applyOp c1S4 (Op.opAddImage (some (100, 100)) "b" 200 200) = c1S5 := by
    norm_num [applyOp, addImage, handlePointerDown, handlePointerMove, handlePointerUp, deleteSelectedImages, groupSelectedImages, removeFromGroup, clearGroupIdFirst, updateMarqueeSelection, getMarqueeRect, rectanglesIntersect, imageRect, getImageAt, screenToWorld, clearSelection, selectGroup, toggleGroup, initialState, c1S4, c1S5]
  have h6 : applyOp c1S5 (Op.opPointerDown false false ⟨0, 0⟩) = c1S6 := by
    norm_num [applyOp, addImage, handlePointerDown, handlePointerMove, handlePointerUp, deleteSelectedImages, groupSelectedImages, removeFromGroup, clearGroupIdFirst, updateMarqueeSelection, getMarqueeRect, rectanglesIntersect, imageRect, getImageAt, screenToWorld, clearSelection, selectGroup, toggleGroup, initialState, c1S5, c1S6]
  have h7 : applyOp c1S6 (Op.opPointerMove ⟨500, 500⟩) = c1S7 := by
    norm_num [applyOp, addImage, handlePointerDown, handlePointerMove, handlePointerUp, deleteSelectedImages, groupSelectedImages, removeFromGroup, clearGroupIdFirst, updateMarqueeSelection, getMarqueeRect, rectanglesIntersect, imageRect, getImageAt, screenToWorld, clearSelection, selectGroup, toggleGroup, initialState, c1S6, c1S7]
  have h8 : applyOp c1S7 (Op.opPointerUp) = c1S8 := by
    norm_num [applyOp, addImage, handlePointerDown, handlePointerMove, handlePointerUp, deleteSelectedImages, groupSelectedImages, removeFromGroup, clearGroupIdFirst, updateMarqueeSelection, getMarqueeRect, rectanglesIntersect, imageRect, getImageAt, screenToWorld, clearSelection, selectGroup, toggleGroup, initialState, c1S7, c1S8]
  have h9 : applyOp c1S8 (Op.opGroupSelected "G1") = c1S9 := by
    norm_num [applyOp, addImage, handlePointerDown, handlePointerMove, handlePointerUp, deleteSelectedImages, groupSelectedImages, removeFromGroup, clearGroupIdFirst, updateMarqueeSelection, getMarqueeRect, rectanglesIntersect, imageRect, getImageAt, screenToWorld, clearSelection, selectGroup, toggleGroup, initialState, c1S8, c1S9]
    rfl
  have h10 : applyOp c1S9 (Op.opPointerDown false false ⟨0, 0⟩) = c1S10 := by
    norm_num [applyOp, addImage, handlePointerDown, handlePointerMove, handlePointerUp, deleteSelectedImages, groupSelectedImages, removeFromGroup, clearGroupIdFirst, updateMarqueeSelection, getMarqueeRect, rectanglesIntersect, imageRect, getImageAt, screenToWorld, clearSelection, selectGroup, toggleGroup, initialState, c1S9, c1S10]
  have h11 : applyOp c1S10 (Op.opPointerMove ⟨300, 300⟩) = c1S11 := by
    norm_num [applyOp, addImage, handlePointerDown, handlePointerMove, handlePointerUp, deleteSelectedImages, groupSelectedImages, removeFromGroup, clearGroupIdFirst, updateMarqueeSelection, getMarqueeRect, rectanglesIntersect, imageRect, getImageAt, screenToWorld, clearSelection, selectGroup, toggleGroup, initialState, c1S10, c1S11]
  have h12 : applyOp c1S11 (Op.opPointerUp) = c1S12 := by
    norm_num [applyOp, addImage, handlePointerDown, handlePointerMove, handlePointerUp, deleteSelectedImages, groupSelectedImages, removeFromGroup, clearGroupIdFirst, updateMarqueeSelection, getMarqueeRect, rectanglesIntersect, imageRect, getImageAt, screenToWorld, clearSelection, selectGroup, toggleGroup, initialState, c1S11, c1S12]
  have h13 : applyOp c1S12 (Op.opDeleteSelected) = c1S13 := by
    norm_num [applyOp, addImage, handlePointerDown, handlePointerMove, handlePointerUp, deleteSelectedImages, groupSelectedImages, removeFromGroup, clearGroupIdFirst, updateMarqueeSelection, getMarqueeRect, rectanglesIntersect, imageRect, getImageAt, screenToWorld, clearSelection, selectGroup, toggleGroup, initialState, c1S12, c1S13]
    decide
  have hrun : runOps initialState c1Trace = c1S13 := by
    simp only [c1Trace, runOps, List.foldl_cons, List.foldl_nil,
      h1, h2, h3, h4, h5, h6, h7, h8, h9, h10, h11, h12, h13]
  rw [hrun]
  refine ⟨rfl, rfl, rfl⟩

/-- Witness for `shift_click_group_toggle` at the concrete two-image
group: every member ends selected, matching the amended rule. -/
theorem shift_click_group_toggle_witness :
    (wstate2.images.map (fun img => img.id)).Nodup ∧
    getImageAt wstate2 (screenToWorld wstate2.viewport ⟨5, 5⟩) = some hitA ∧
    hitA.groupId = some "g" ∧
    nodeB ∈ (handlePointerDown wstate2 true false ⟨5, 5⟩).images ∧
    nodeB.groupId = some "g" ∧
    nodeB.selected = !((wstate2.images.filter (fun i => i.groupId = some "g")).all
        (fun i => if i.id = hitA.id then !hitA.selected else i.selected)) := by
  have hhit : getImageAt wstate2 (screenToWorld wstate2.viewport ⟨5, 5⟩) = some hitA := by
    norm_num [getImageAt, screenToWorld, wstate2, initialState, hitA]
  have hres : (handlePointerDown wstate2 true false ⟨5, 5⟩).images = [hitA, nodeB] := by
    norm_num [handlePointerDown, getImageAt, screenToWorld, toggleGroup, wstate2,
      initialState, hitA, nodeB]
    all_goals decide
  have hmem : nodeB ∈ (handlePointerDown wstate2 true false ⟨5, 5⟩).images := by
    rw [hres]
    simp
  refine ⟨by decide, hhit, rfl, hmem, rfl, ?_⟩
  exact shift_click_group_toggle wstate2 ⟨5, 5⟩ hitA "g" (by decide) hhit rfl nodeB hmem rfl

end ImageCanvas
